import Mathlib

/-!
Verification development for the unified MCP gateway
(src/mcp-server/src/server/unified_mcp_v2.py).

The gateway aggregates the tools / resources / prompts of several backend
MCP server processes behind one JSON-RPC endpoint.  The definitions below
are a shallow embedding of the data model and the operations of that file:
JSON values are an inductive type, wall-clock times and latencies are
rationals, the backend processes' replies are oracle parameters, and each
Python function is translated into a Lean function over this state.
-/

namespace MCP

/-- JSON values, as produced and consumed by the gateway.  Numbers are
rationals (JSON numbers in the source are ints and floats). -/
inductive JsonVal where
  | null
  | bool (b : Bool)
  | num (n : ℚ)
  | str (s : String)
  | arr (elems : List JsonVal)
  | obj (fields : List (String × JsonVal))
deriving Repr

/-- Python `dict.get(key)`: the value of the first field named `k`. -/
def JsonVal.get? (v : JsonVal) (k : String) : Option JsonVal :=
  match v with
  | .obj fields => (fields.find? (fun p => p.1 = k)).map (fun p => p.2)
  | _ => none

/-- The key list of a JSON object (empty for non-objects). -/
def JsonVal.keys : JsonVal → List String
  | .obj fields => fields.map Prod.fst
  | _ => []

/-- Python `str(x)` for the optional values interpolated into messages:
`None` renders as "None"; only string payloads are rendered exactly
(non-string renderings are never inspected by a theorem). -/
def pyStr : Option JsonVal → String
  | some (.str s) => s
  | some _ => "non-string value"
  | none => "None"

/-- Python `dict.get(key, default)` for string-valued arguments. -/
def JsonVal.getStrD (v : JsonVal) (k : String) (d : String) : String :=
  match v.get? k with
  | some w => pyStr (some w)
  | none => d

/-- One step supply of Python `str.replace`: replace every (leftmost,
non-overlapping) occurrence of `pat` in the character list.  The fuel is
an upper bound on the number of characters consumed; with a non-empty
pattern each step consumes at least one character, so fuel = length of
the subject is enough. -/
def pyReplaceGo : Nat → List Char → List Char → List Char → List Char
  | _, _, _, [] => []
  | 0, _, _, l => l
  | fuel + 1, pat, repl, c :: rest =>
    if pat.isPrefixOf (c :: rest) then
      repl ++ pyReplaceGo fuel pat repl ((c :: rest).drop pat.length)
    else
      c :: pyReplaceGo fuel pat repl rest

/-- Python `s.replace(pat, repl)`: replaces every occurrence of `pat`,
not only a leading one.  (For an empty pattern Python interleaves the
replacement between characters; the gateway only ever replaces non-empty
patterns, and we return `s` unchanged in that unused case.) -/
def pyReplace (s pat repl : String) : String :=
  if pat.data.isEmpty then s
  else ⟨pyReplaceGo s.data.length pat.data repl.data s.data⟩

/-- Python `s.startswith(pre)`. -/
def pyStartsWith (s pre : String) : Bool :=
  pre.data.isPrefixOf s.data

/-- A tool descriptor advertised by a backend or built in
(`name`, `description`, `inputSchema`). -/
structure Tool where
  name : String
  description : String
  inputSchema : JsonVal := JsonVal.obj []
deriving Repr

/-- A resource descriptor (`uri`, `name`, `description`, `mimeType`). -/
structure Resource where
  uri : String
  name : String
  description : String := ""
  mimeType : String := ""
deriving Repr

/-- A prompt descriptor (`name`, `description`, `arguments`). -/
structure Prompt where
  name : String
  description : String
  arguments : JsonVal := JsonVal.arr []
deriving Repr

/-- `fetch_server_capabilities`, tool rewriting (lines 464-466):
`tool["name"] = f"(conn.name)_(tool[name])"` and the description is
decorated with the bracketed connection name. -/
def rewriteTool (connName : String) (t : Tool) : Tool :=
  { t with
    name := connName ++ "_" ++ t.name
    description := "[" ++ connName ++ "] " ++ t.description }

/-- `fetch_server_capabilities`, resource rewriting (lines 482-484):
the URI is prefixed with `connName ++ "://"` and the display name is
decorated. -/
def rewriteResource (connName : String) (r : Resource) : Resource :=
  { r with
    uri := connName ++ "://" ++ r.uri
    name := "[" ++ connName ++ "] " ++ r.name }

/-- `fetch_server_capabilities`, prompt rewriting (lines 500-502). -/
def rewritePrompt (connName : String) (p : Prompt) : Prompt :=
  { p with
    name := connName ++ "_" ++ p.name
    description := "[" ++ connName ++ "] " ++ p.description }

/-- An `inputSchema` of the shape used by every built-in tool:
`type: object` with the given properties and required names. -/
def objectSchema (props : List (String × JsonVal)) (required : List String) : JsonVal :=
  .obj [("type", .str "object"),
        ("properties", .obj props),
        ("required", .arr (required.map JsonVal.str))]

/-- The five built-in tools installed by `load_mcp_config` (lines 139-195). -/
def builtin_tools : List Tool :=
  [{ name := "health_check"
     description := "Check health of unified MCP server"
     inputSchema := objectSchema [] [] },
   { name := "list_connected_servers"
     description := "List all connected MCP servers and their status"
     inputSchema := objectSchema [] [] },
   { name := "server_capabilities"
     description := "Get capabilities of a specific server"
     inputSchema := objectSchema
       [("server_name", .obj [("type", .str "string"),
                              ("description", .str "Name of the server to query")])]
       ["server_name"] },
   { name := "server_statistics"
     description := "Get comprehensive performance statistics for all servers"
     inputSchema := objectSchema [] [] },
   { name := "reconnect_server"
     description := "Manually reconnect to a specific server"
     inputSchema := objectSchema
       [("server_name", .obj [("type", .str "string"),
                              ("description", .str "Name of the server to reconnect")])]
       ["server_name"] }]

/-- The built-in resource installed by `load_mcp_config` (lines 198-205). -/
def builtin_resources : List Resource :=
  [{ uri := "config://mcp-servers"
     name := "MCP Server Configuration"
     description := "Current MCP server configuration"
     mimeType := "application/json" }]

/-- The built-in prompt installed by `load_mcp_config` (lines 208-220). -/
def builtin_prompts : List Prompt :=
  [{ name := "analyze_error"
     description := "Analyze an error message and suggest fixes"
     arguments := .arr [.obj [("name", .str "error_message"),
                              ("description", .str "The error message to analyze"),
                              ("required", .bool true)]] }]

/-- One backend connection (dataclass `ServerConnection`).  The process
handle is abstracted to the liveness test the source performs on it
(`process is not None and process.returncode is None`); the pending-request
dict is abstracted to its key list; times are rationals. -/
structure ServerConnection where
  name : String
  tools : List Tool := []
  resources : List Resource := []
  prompts : List Prompt := []
  initialized : Bool := false
  capabilities : JsonVal := .obj []
  processAlive : Bool := true
  request_id : Nat := 0
  pending_requests : List Nat := []
  last_heartbeat : ℚ := 0
  request_count : Nat := 0
  error_count : Nat := 0
  avg_response_time : ℚ := 0
  connection_attempts : Nat := 0
  last_error : Option String := none
deriving Repr

/-- `ServerConnection.is_healthy` (lines 70-78): process alive, handshake
completed, and last heartbeat within the 60-unit freshness window. -/
def ServerConnection.is_healthy (c : ServerConnection) (now : ℚ) : Bool :=
  if !c.processAlive then false
  else if !c.initialized then false
  else decide (now - c.last_heartbeat < 60)

/-- `ServerConnection.update_stats` (lines 80-93): bump the request count,
bump the error count on failure, fold the sample into the latency average
(taken as-is while the average is the 0 sentinel, otherwise
new = 0.9 * old + 0.1 * sample), and stamp the heartbeat. -/
def ServerConnection.update_stats (c : ServerConnection)
    (now response_time : ℚ) (success : Bool) : ServerConnection :=
  let c1 := { c with request_count := c.request_count + 1 }
  let c2 := if success then c1 else { c1 with error_count := c1.error_count + 1 }
  let c3 :=
    if c2.avg_response_time = 0 then
      { c2 with avg_response_time := response_time }
    else
      { c2 with avg_response_time := (9 / 10) * c2.avg_response_time + (1 / 10) * response_time }
  { c3 with last_heartbeat := now }

/-- The possible outcomes of one `send_server_request` call for a request
(a message carrying an id): the reader task resolved the future, the
30-unit wait timed out, or writing/awaiting raised some other exception. -/
inductive SendOutcome where
  | replyReceived
  | timedOut
  | sendFailed (msg : String)
deriving Repr, DecidableEq

/-- `send_server_request` (lines 389-431) for a request: an early return
if the process is dead (no statistics, no registration); otherwise the
future is registered under the request id, the outcome decides how the
pending entry and `last_error` evolve (a matching reply is popped by the
reader, a timeout is evicted by the except branch, any other send failure
leaves the entry in place), and the `finally` block updates statistics
with success exactly when a reply was received. -/
def send_server_request_effect (c : ServerConnection)
    (now elapsed : ℚ) (request_id : Nat) (outcome : SendOutcome) : ServerConnection :=
  if !c.processAlive then c
  else
    let registered := { c with pending_requests := request_id :: c.pending_requests }
    let afterOutcome :=
      match outcome with
      | .replyReceived =>
          { registered with pending_requests := registered.pending_requests.erase request_id }
      | .timedOut =>
          let evicted :=
            if request_id ∈ registered.pending_requests then
              { registered with pending_requests := registered.pending_requests.erase request_id }
            else registered
          { evicted with last_error := some "Request timeout" }
      | .sendFailed m =>
          { registered with last_error := some m }
    afterOutcome.update_stats now elapsed (decide (outcome = .replyReceived))

/-- The per-attempt outcomes `start_server_connection` distinguishes:
a completed handshake, an initialize reply without a result, a timeout
(spawn or handshake), `FileNotFoundError`, `PermissionError`, or any other
exception. -/
inductive AttemptOutcome where
  | connected
  | invalidHandshake
  | timedOut
  | execMissing
  | permissionDenied
  | otherFailure
deriving Repr, DecidableEq

/-- Whether `start_server_connection` retries after this outcome:
everything except success, a missing executable and a permission error. -/
def retryable : AttemptOutcome → Bool
  | .invalidHandshake => true
  | .timedOut => true
  | .otherFailure => true
  | _ => false

/-- The observable trace of `start_server_connection`: how many loop
iterations ran, which backoff sleeps were performed (in order), and
whether a live connection was returned. -/
structure StartTrace where
  attempts : Nat
  sleeps : List ℚ
  connected : Bool
deriving Repr, DecidableEq

/-- The retry loop of `start_server_connection` (lines 230-360):
`remaining` iterations are left, `made` have run, `retry_delay` is the
next backoff. A successful handshake returns the connection; a missing
executable or a permission error returns immediately without retrying;
every other failure sleeps `retry_delay` and doubles it, unless this was
the last attempt. -/
def start_connection_loop :
    Nat → Nat → ℚ → (Nat → AttemptOutcome) → StartTrace
  | 0, made, _, _ => ⟨made, [], false⟩
  | remaining + 1, made, retry_delay, outcomes =>
    match outcomes made with
    | .connected => ⟨made + 1, [], true⟩
    | .execMissing => ⟨made + 1, [], false⟩
    | .permissionDenied => ⟨made + 1, [], false⟩
    | _ =>
      if remaining = 0 then ⟨made + 1, [], false⟩
      else
        let rest := start_connection_loop remaining (made + 1) (retry_delay * 2) outcomes
        ⟨rest.attempts, retry_delay :: rest.sleeps, rest.connected⟩

/-- `start_server_connection` (lines 228-360): the gateway's own name and
a configuration without a launch command return during the first
iteration with no retry; otherwise the loop runs with `max_retries = 3`
and an initial delay of 1 time unit. -/
def start_server_connection_trace (server_name : String) (commandMissing : Bool)
    (outcomes : Nat → AttemptOutcome) : StartTrace :=
  if server_name = "unified-mcp" then ⟨1, [], false⟩
  else if commandMissing then ⟨1, [], false⟩
  else start_connection_loop 3 0 1 outcomes

/-- The gateway's merged descriptor view (`self.tools`, `self.resources`,
`self.prompts`), also used for one connection's own caches. -/
structure Directory where
  tools : List Tool := []
  resources : List Resource := []
  prompts : List Prompt := []
deriving Repr

/-- What one backend advertises in its `tools/list`, `resources/list`
and `prompts/list` replies (empty lists when a reply carried no result). -/
structure BackendAdvertised where
  tools : List Tool := []
  resources : List Resource := []
  prompts : List Prompt := []
deriving Repr

/-- Python dict assignment `reg[k] = v`: replace the entry in place,
preserving order, or append a new one. -/
def setEntry {α : Type} : List (String × α) → String → α → List (String × α)
  | [], k, v => [(k, v)]
  | (k', v') :: rest, k, v =>
    if k' = k then (k, v) :: rest else (k', v') :: setEntry rest k v

/-- Python `reg.get(k)` / `reg[k]`: the first entry with the key. -/
def lookupEntry {α : Type} (reg : List (String × α)) (k : String) : Option α :=
  (reg.find? (fun p => p.1 = k)).map (fun p => p.2)

/-- `fetch_server_capabilities` (lines 449-504) as it acts on the
directories: the advertised descriptors are rewritten with the
connection's name, the connection's own caches are replaced wholesale by
the rewritten sets, and the gateway aggregate is EXTENDED by them
(`self.tools.extend(tools)` and its resource/prompt counterparts). -/
def fetch_server_capabilities_effect (agg : Directory) (connName : String)
    (adv : BackendAdvertised) : Directory × Directory :=
  let caches : Directory :=
    { tools := adv.tools.map (rewriteTool connName)
      resources := adv.resources.map (rewriteResource connName)
      prompts := adv.prompts.map (rewritePrompt connName) }
  (caches,
   { tools := agg.tools ++ caches.tools
     resources := agg.resources ++ caches.resources
     prompts := agg.prompts ++ caches.prompts })

/-- One (re)connection event: `start_server_connection` succeeds for
`connName`, `fetch_server_capabilities` runs, and the connection (carrying
its caches) is stored in the registry under its name. -/
def connect_event (agg : Directory) (registry : List (String × Directory))
    (connName : String) (adv : BackendAdvertised) :
    Directory × List (String × Directory) :=
  let (caches, agg') := fetch_server_capabilities_effect agg connName adv
  (agg', setEntry registry connName caches)

/-- A sequence of (re)connection events folded over the gateway state. -/
def run_connect_events (agg : Directory) (registry : List (String × Directory)) :
    List (String × BackendAdvertised) → Directory × List (String × Directory)
  | [] => (agg, registry)
  | (n, adv) :: rest =>
    let (agg', reg') := connect_event agg registry n adv
    run_connect_events agg' reg' rest

/-- What the health monitor did to one unhealthy connection in a cycle. -/
structure CycleReport where
  name : String
  reader_cancelled : Bool
  process_terminated : Bool
  reconnect_attempts : Nat
deriving Repr, DecidableEq

/-- What `health_monitor_loop` does to one registry entry in a cycle
(see `health_monitor_cycle`): an entry failing `is_healthy` is torn down
(reader cancelled, process terminated) and, when its name is still
configured, replaced by the result of one reconnection attempt — the
torn-down old entry staying under its name when the attempt fails. -/
def health_cycle_entry (now : ℚ) (configured : String → Bool)
    (reconnect : String → Option ServerConnection)
    (p : String × ServerConnection) : String × ServerConnection :=
  if p.2.is_healthy now then p
  else
    let torn := { p.2 with processAlive := false }
    if configured p.1 then
      match reconnect p.1 with
      | some fresh => (p.1, fresh)
      | none => (p.1, torn)
    else (p.1, torn)

/-- One cycle of `health_monitor_loop` (lines 1055-1091): every connection
failing `is_healthy` has its reader task cancelled and its process
terminated; if its name is still configured, exactly one reconnection is
attempted, a success replacing the registry entry in place and a failure
leaving the (torn-down) old entry under its name.  Healthy connections are
untouched.  The second component reports the teardown and attempt counts
per unhealthy connection. -/
def health_monitor_cycle (registry : List (String × ServerConnection)) (now : ℚ)
    (configured : String → Bool) (reconnect : String → Option ServerConnection) :
    List (String × ServerConnection) × List CycleReport :=
  let newReg := registry.map (health_cycle_entry now configured reconnect)
  let reports := (registry.filter (fun p => !(p.2.is_healthy now))).map (fun p =>
    { name := p.1
      reader_cancelled := true
      process_terminated := true
      reconnect_attempts := if configured p.1 then 1 else 0 })
  (newReg, reports)

/-- The front-facing gateway state (`MCPServerV2`): the ready flag set by
the client's `initialized` notification, the aggregate directory, the
connection registry, and the configured backend names (`mcp_servers`,
whose per-backend command/env bodies the router never reads beyond
membership). -/
structure Gateway where
  initialized : Bool := false
  tools : List Tool := []
  resources : List Resource := []
  prompts : List Prompt := []
  server_connections : List (String × ServerConnection) := []
  mcp_servers : List String := []
  transportKind : String := "stdio"
deriving Repr

/-- The parameters object of a front-end request, holding the fields the
router reads (`params.get("name")`, `params.get("arguments", ...)`,
`params.get("uri")`); an absent `params` is the empty object, so every
field takes its default. -/
structure ReqParams where
  name : Option String := none
  arguments : JsonVal := .obj []
  uri : Option String := none
deriving Repr

/-- A front-end JSON-RPC message that parsed to a JSON object:
whether the `jsonrpc` field is present, the optional `id`, the optional
`method`, and the parameters. -/
structure RpcRequest where
  hasJsonrpc : Bool := true
  id : Option Int := none
  method : Option String := none
  params : ReqParams := {}
deriving Repr

/-- A reply object as the gateway builds it: `result` and the error
fields are optional, so whether a reply carries exactly one of them is a
property of the construction sites, not of the type. -/
structure RpcReply where
  id : Option Int := none
  result : Option JsonVal := none
  errorCode : Option Int := none
  errorMessage : Option String := none
deriving Repr

/-- What a proxied backend sends back through `send_server_request`:
a reply with a `result` field, a reply with an `error` field (carrying a
message), or no reply at all (timeout or dead process). -/
inductive BackendOutcome where
  | ok (v : JsonVal)
  | fail (msg : String)
  | noResponse
deriving Repr

/-- A backend oracle: connection name, proxied method, forwarded params
object ↦ the backend's outcome. -/
def BackendOracle : Type := String → String → JsonVal → BackendOutcome

/-- JSON encoding of a tool descriptor. -/
def Tool.toJson (t : Tool) : JsonVal :=
  .obj [("name", .str t.name), ("description", .str t.description),
        ("inputSchema", t.inputSchema)]

/-- JSON encoding of a resource descriptor. -/
def Resource.toJson (r : Resource) : JsonVal :=
  .obj [("uri", .str r.uri), ("name", .str r.name),
        ("description", .str r.description), ("mimeType", .str r.mimeType)]

/-- JSON encoding of a prompt descriptor. -/
def Prompt.toJson (p : Prompt) : JsonVal :=
  .obj [("name", .str p.name), ("description", .str p.description),
        ("arguments", p.arguments)]

/-- Built-in tool results are one text content block whose text is the
JSON serialization of a payload (`json.dumps(payload, indent=2)`);
serialization is modeled by embedding the payload value itself. -/
def builtin_text_result (payload : JsonVal) : JsonVal :=
  .obj [("content", .arr [.obj [("type", .str "text"), ("text", payload)]])]

/-- The `health_check` built-in (lines 583-600). -/
def health_check_result (gw : Gateway) : JsonVal :=
  builtin_text_result (.obj
    [("status", .str "healthy"),
     ("version", .str "2.0.0"),
     ("connected_servers", .num (gw.server_connections.length : ℚ)),
     ("total_tools", .num (gw.tools.length : ℚ)),
     ("total_resources", .num (gw.resources.length : ℚ)),
     ("total_prompts", .num (gw.prompts.length : ℚ)),
     ("initialized", .bool gw.initialized),
     ("transport", .str gw.transportKind)])

/-- The `list_connected_servers` built-in (lines 602-620). -/
def list_connected_servers_result (gw : Gateway) : JsonVal :=
  builtin_text_result (.obj (gw.server_connections.map (fun p =>
    (p.1, JsonVal.obj
      [("connected", .bool p.2.processAlive),
       ("initialized", .bool p.2.initialized),
       ("tools_count", .num (p.2.tools.length : ℚ)),
       ("resources_count", .num (p.2.resources.length : ℚ)),
       ("prompts_count", .num (p.2.prompts.length : ℚ))]))))

/-- The `server_capabilities` built-in (lines 622-647): an unknown or
absent `server_name` reports not-found text; otherwise the connection's
negotiated capability object and descriptor names. -/
def server_capabilities_result (gw : Gateway) (arguments : JsonVal) : JsonVal :=
  let server_name := arguments.get? "server_name"
  let key := match server_name with
    | some (.str s) => some s
    | _ => none
  match key.bind (lookupEntry gw.server_connections) with
  | none =>
      builtin_text_result
        (.str ("Server '" ++ pyStr server_name ++ "' not found or not connected"))
  | some conn =>
      builtin_text_result (.obj
        [("capabilities", conn.capabilities),
         ("tools", .arr (conn.tools.map (fun t => .str t.name))),
         ("resources", .arr (conn.resources.map (fun r => .str r.uri))),
         ("prompts", .arr (conn.prompts.map (fun p => .str p.name)))])

/-- Python `round(q, 3)` (ties are modeled half-up; the source's banker's
rounding differs only at exact half-thousandths, which no theorem uses). -/
def round3 (q : ℚ) : ℚ := (round (q * 1000) : ℤ) / 1000

/-- `get_server_stats` (lines 1093-1137). -/
def get_server_stats (gw : Gateway) (now : ℚ) : JsonVal :=
  let healthy := (gw.server_connections.filter (fun p => p.2.is_healthy now)).length
  .obj
    [("unified_server", .obj
       [("version", .str "2.0.0"),
        ("initialized", .bool gw.initialized),
        ("transport", .str gw.transportKind),
        ("total_tools", .num (gw.tools.length : ℚ)),
        ("total_resources", .num (gw.resources.length : ℚ)),
        ("total_prompts", .num (gw.prompts.length : ℚ))]),
     ("connected_servers", .obj (gw.server_connections.map (fun p =>
       (p.1, JsonVal.obj
         [("healthy", .bool (p.2.is_healthy now)),
          ("initialized", .bool p.2.initialized),
          ("tools_count", .num (p.2.tools.length : ℚ)),
          ("resources_count", .num (p.2.resources.length : ℚ)),
          ("prompts_count", .num (p.2.prompts.length : ℚ)),
          ("request_count", .num (p.2.request_count : ℚ)),
          ("error_count", .num (p.2.error_count : ℚ)),
          ("avg_response_time", .num (round3 p.2.avg_response_time)),
          ("last_error", match p.2.last_error with
            | some m => .str m
            | none => .null),
          ("connection_attempts", .num (p.2.connection_attempts : ℚ))])))),
     ("summary", .obj
       [("total_servers", .num (gw.server_connections.length : ℚ)),
        ("healthy_servers", .num (healthy : ℚ)),
        ("unhealthy_servers", .num ((gw.server_connections.length - healthy : Nat) : ℚ)),
        ("total_requests", .num ((gw.server_connections.map (fun p => p.2.request_count)).sum : ℚ)),
        ("total_errors", .num ((gw.server_connections.map (fun p => p.2.error_count)).sum : ℚ))])]

/-- The `reconnect_server` built-in (lines 660-712), as the text it
returns: the registry teardown/replacement it performs reuses the
`start_server_connection` and `setEntry` behavior modeled above; the
outcome of that attempt is the oracle `reconnectOk`. -/
def reconnect_server_result (gw : Gateway) (arguments : JsonVal)
    (reconnectOk : String → Bool) : JsonVal :=
  match arguments.get? "server_name" with
  | none => builtin_text_result (.str "Error: server_name is required")
  | some sn =>
    let key := match sn with
      | .str s => some s
      | _ => none
    match key with
    | none =>
        builtin_text_result
          (.str ("Error: Server '" ++ pyStr (some sn) ++ "' not found in configuration"))
    | some s =>
      if gw.mcp_servers.contains s then
        if reconnectOk s then
          builtin_text_result (.str ("Successfully reconnected to " ++ s))
        else
          builtin_text_result (.str ("Failed to reconnect to " ++ s))
      else
        builtin_text_result
          (.str ("Error: Server '" ++ s ++ "' not found in configuration"))

/-- The proxy scan of `handle_tools_call` (lines 715-724): the first
connection whose tool cache contains the exposed name wins, and the
forwarded name is `tool_name.replace(server_name + "_", "")` — Python's
replace-all, not a prefix strip. -/
def proxy_route_tool (conns : List (String × ServerConnection))
    (tool_name : String) : Option (String × String) :=
  (conns.find? (fun p => p.2.tools.any (fun t => t.name = tool_name))).map
    (fun p => (p.1, pyReplace tool_name (p.1 ++ "_") ""))

/-- The proxy scan of `handle_prompts_get` (lines 818-827), same
`replace`-based un-prefixing as for tools. -/
def proxy_route_prompt (conns : List (String × ServerConnection))
    (name : String) : Option (String × String) :=
  (conns.find? (fun p => p.2.prompts.any (fun pr => pr.name = name))).map
    (fun p => (p.1, pyReplace name (p.1 ++ "_") ""))

/-- The proxy scan of `handle_resources_read` (lines 765-776): the first
connection whose name-plus-`://` starts the URI wins, and the forwarded
URI is `uri.replace(server_name + "://", "")`. -/
def proxy_route_resource (conns : List (String × ServerConnection))
    (uri : String) : Option (String × String) :=
  (conns.find? (fun p => pyStartsWith uri (p.1 ++ "://"))).map
    (fun p => (p.1, pyReplace uri (p.1 ++ "://") ""))

/-- Shared wrap of a proxied backend outcome (lines 729-734 and the
resource/prompt copies): a result is returned, an error reply or a
missing reply raises. -/
def proxied_result (serverName : String) (out : BackendOutcome) :
    Except String JsonVal :=
  match out with
  | .ok v => .ok v
  | .fail m => .error ("Server error: " ++ m)
  | .noResponse => .error ("No response from " ++ serverName)

/-- `handle_tools_list` (lines 565-570). -/
def handle_tools_list (gw : Gateway) : Except String JsonVal :=
  if !gw.initialized then .error "Server not initialized"
  else .ok (.obj [("tools", .arr (gw.tools.map Tool.toJson))])

/-- `handle_tools_call` (lines 572-736): the readiness gate, then the
five built-in tools (tried before any backend), then the proxy scan. -/
def handle_tools_call (gw : Gateway) (now : ℚ) (params : ReqParams)
    (backend : BackendOracle) (reconnectOk : String → Bool) :
    Except String JsonVal :=
  if !gw.initialized then .error "Server not initialized"
  else
    let tool_name := params.name
    let arguments := params.arguments
    if tool_name = some "health_check" then .ok (health_check_result gw)
    else if tool_name = some "list_connected_servers" then
      .ok (list_connected_servers_result gw)
    else if tool_name = some "server_capabilities" then
      .ok (server_capabilities_result gw arguments)
    else if tool_name = some "server_statistics" then
      .ok (builtin_text_result (get_server_stats gw now))
    else if tool_name = some "reconnect_server" then
      .ok (reconnect_server_result gw arguments reconnectOk)
    else
      match tool_name with
      | none => .error "Tool not found: None"
      | some tn =>
        match proxy_route_tool gw.server_connections tn with
        | some (sname, fwdName) =>
            proxied_result sname
              (backend sname "tools/call"
                (.obj [("name", .str fwdName), ("arguments", arguments)]))
        | none => .error ("Tool not found: " ++ tn)

/-- `handle_resources_list` (lines 738-743). -/
def handle_resources_list (gw : Gateway) : Except String JsonVal :=
  if !gw.initialized then .error "Server not initialized"
  else .ok (.obj [("resources", .arr (gw.resources.map Resource.toJson))])

/-- The built-in `config://mcp-servers` resource (lines 753-762); the
serialized configuration is modeled as the object keyed by the configured
names (their command/env bodies are outside the modeled state). -/
def config_resource_result (gw : Gateway) : JsonVal :=
  .obj [("contents", .arr
    [.obj [("uri", .str "config://mcp-servers"),
           ("mimeType", .str "application/json"),
           ("text", .obj (gw.mcp_servers.map (fun n => (n, JsonVal.obj []))))]])]

/-- `handle_resources_read` (lines 745-785).  With a missing `uri` the
source compares `None` against the built-in URI (false) and then, if any
connection exists, crashes on `None.startswith` (an `AttributeError`
caught by `handle_request`); with no connections it falls through to the
not-found raise. -/
def handle_resources_read (gw : Gateway) (params : ReqParams)
    (backend : BackendOracle) : Except String JsonVal :=
  if !gw.initialized then .error "Server not initialized"
  else
    match params.uri with
    | none =>
      if gw.server_connections.isEmpty then .error "Resource not found: None"
      else .error "AttributeError: NoneType object has no attribute startswith"
    | some uri =>
      if uri = "config://mcp-servers" then .ok (config_resource_result gw)
      else
        match proxy_route_resource gw.server_connections uri with
        | some (sname, originalUri) =>
            proxied_result sname
              (backend sname "resources/read" (.obj [("uri", .str originalUri)]))
        | none => .error ("Resource not found: " ++ uri)

/-- `handle_prompts_list` (lines 787-792). -/
def handle_prompts_list (gw : Gateway) : Except String JsonVal :=
  if !gw.initialized then .error "Server not initialized"
  else .ok (.obj [("prompts", .arr (gw.prompts.map Prompt.toJson))])

/-- `handle_prompts_get` (lines 794-838): the readiness gate, the
built-in `analyze_error` prompt, then the proxy scan. -/
def handle_prompts_get (gw : Gateway) (params : ReqParams)
    (backend : BackendOracle) : Except String JsonVal :=
  if !gw.initialized then .error "Server not initialized"
  else
    let name := params.name
    let arguments := params.arguments
    if name = some "analyze_error" then
      let error_message := arguments.getStrD "error_message" ""
      .ok (.obj [("messages", .arr
        [.obj [("role", .str "user"),
               ("content", .obj
                 [("type", .str "text"),
                  ("text", .str ("Please analyze this error and suggest fixes:\n\n"
                                  ++ error_message))])]])])
    else
      match name with
      | none => .error "Prompt not found: None"
      | some n =>
        match proxy_route_prompt gw.server_connections n with
        | some (sname, fwdName) =>
            proxied_result sname
              (backend sname "prompts/get"
                (.obj [("name", .str fwdName), ("arguments", arguments)]))
        | none => .error ("Prompt not found: " ++ n)

/-- The capability object `handle_initialize` builds (lines 543-552):
tools / resources / prompts keys are present exactly when the aggregate
lists are non-empty, and a logging key is always present (its `None`
filter never fires because its value is unconditionally the empty
object). -/
def aggregate_capabilities_obj (gw : Gateway) : JsonVal :=
  .obj ((if gw.tools.isEmpty then [] else [("tools", JsonVal.obj [])]) ++
        (if gw.resources.isEmpty then [] else [("resources", JsonVal.obj [])]) ++
        (if gw.prompts.isEmpty then [] else [("prompts", JsonVal.obj [])]) ++
        [("logging", JsonVal.obj [])])

/-- The result of `handle_initialize` (lines 554-558), computed on the
state reached after the proxy connections were established. -/
def handle_initialize_result (gw : Gateway) : JsonVal :=
  .obj [("protocolVersion", .str "2024-11-05"),
        ("capabilities", aggregate_capabilities_obj gw),
        ("serverInfo", .obj [("name", .str "unified-mcp-v2"),
                             ("version", .str "2.0.0")])]

/-- Lines 878-899 of `handle_request`: a handler's value becomes a
`result` reply and a raised exception becomes a -32603 error reply, in
both cases only when the message carried an id. -/
def wrap_handler_reply (request_id : Option Int) (r : Except String JsonVal) :
    Option RpcReply :=
  match r with
  | .ok v =>
      if request_id.isSome then
        some { id := request_id, result := some v }
      else none
  | .error msg =>
      if request_id.isSome then
        some { id := request_id, errorCode := some (-32603), errorMessage := some msg }
      else none

/-- The rendering of the method name in the method-not-found message
(`f"Method not found: ..."`; a missing method renders as "None"). -/
def methodText : Option String → String
  | some m => m
  | none => "None"

/-- `handle_request` (lines 840-899).  `initEffect` is the state reached
by `initialize_proxy_servers` (spawning the configured backends and
aggregating their capabilities, as modeled by `connect_event`); note that
the unknown-method branch (lines 868-876) replies whether or not the
message carried an id, while the `initialized` branch never replies. -/
def handle_request (gw : Gateway) (now : ℚ) (req : RpcRequest)
    (initEffect : Gateway → Gateway) (backend : BackendOracle)
    (reconnectOk : String → Bool) : Gateway × Option RpcReply :=
  let request_id := req.id
  let params := req.params
  if req.method = some "initialize" then
    let gw' := initEffect gw
    (gw', wrap_handler_reply request_id (.ok (handle_initialize_result gw')))
  else if req.method = some "initialized" then
    ({ gw with initialized := true }, none)
  else if req.method = some "tools/list" then
    (gw, wrap_handler_reply request_id (handle_tools_list gw))
  else if req.method = some "tools/call" then
    (gw, wrap_handler_reply request_id (handle_tools_call gw now params backend reconnectOk))
  else if req.method = some "resources/list" then
    (gw, wrap_handler_reply request_id (handle_resources_list gw))
  else if req.method = some "resources/read" then
    (gw, wrap_handler_reply request_id (handle_resources_read gw params backend))
  else if req.method = some "prompts/list" then
    (gw, wrap_handler_reply request_id (handle_prompts_list gw))
  else if req.method = some "prompts/get" then
    (gw, wrap_handler_reply request_id (handle_prompts_get gw params backend))
  else
    (gw, some { id := request_id, errorCode := some (-32601),
                errorMessage := some ("Method not found: " ++ methodText req.method) })

/-- One line arriving on a front-end transport, after JSON parsing:
unparseable text, a valid JSON value that is not an object, or an
object (with its fields as read by the router). -/
inductive FrontLine where
  | malformed
  | nonObject
  | message (req : RpcRequest)
deriving Repr

/-- One iteration of `run_stdio` (lines 906-948) past the blank-line
skip: a parse failure answers -32700, a non-object or an object missing
`jsonrpc` answers -32600 (id null), and everything else is dispatched,
the reply (when any) being printed. -/
def run_stdio_process_line (gw : Gateway) (now : ℚ) (line : FrontLine)
    (initEffect : Gateway → Gateway) (backend : BackendOracle)
    (reconnectOk : String → Bool) : Gateway × Option RpcReply :=
  match line with
  | .malformed =>
      (gw, some { id := none, errorCode := some (-32700), errorMessage := some "Parse error" })
  | .nonObject =>
      (gw, some { id := none, errorCode := some (-32600), errorMessage := some "Invalid Request" })
  | .message req =>
    if !req.hasJsonrpc then
      (gw, some { id := none, errorCode := some (-32600), errorMessage := some "Invalid Request" })
    else
      handle_request gw now req initEffect backend reconnectOk

/-- An HTTP response of the `POST /rpc` endpoint: a JSON reply with a
status code, or an empty 204. -/
inductive HttpReplyKind where
  | jsonReply (status : Nat) (reply : RpcReply)
  | noContent
deriving Repr

/-- `handle_http_request` (lines 957-985): a parse failure answers 400
with -32700; any other body is passed to `handle_request` as-is — there
is no `jsonrpc` (or object-shape) validation on this transport, so a
non-object body only fails when `request.get` raises (`AttributeError`,
caught as a 500 with -32603), and an object missing `jsonrpc` is
dispatched normally.  A reply yields 200, no reply yields 204. -/
def handle_http_request_model (gw : Gateway) (now : ℚ) (body : FrontLine)
    (initEffect : Gateway → Gateway) (backend : BackendOracle)
    (reconnectOk : String → Bool) : Gateway × HttpReplyKind :=
  match body with
  | .malformed =>
      (gw, .jsonReply 400
        { id := none, errorCode := some (-32700), errorMessage := some "Parse error" })
  | .nonObject =>
      (gw, .jsonReply 500
        { id := none, errorCode := some (-32603),
          errorMessage := some "AttributeError: value has no attribute get" })
  | .message req =>
    let (gw', r) := handle_request gw now req initEffect backend reconnectOk
    match r with
    | some reply => (gw', .jsonReply 200 reply)
    | none => (gw', .noContent)

/-- The error code of an HTTP reply, when it is a JSON error reply. -/
def HttpReplyKind.errCodeOf : HttpReplyKind → Option Int
  | .jsonReply _ r => r.errorCode
  | .noContent => none

/-- Whether an HTTP reply is a JSON reply carrying a result. -/
def HttpReplyKind.carriesResult : HttpReplyKind → Bool
  | .jsonReply _ r => r.result.isSome
  | .noContent => false

/-- The method names `handle_request` dispatches to a handler. -/
def known_methods : List String :=
  ["initialize", "initialized", "tools/list", "tools/call",
   "resources/list", "resources/read", "prompts/list", "prompts/get"]

/-- A backend tool whose original name already starts with its owning
connection's name and an underscore. -/
def gitStatusTool : Tool :=
  { name := "git_status", description := "show working tree status" }

/-- The git connection after a successful fetch: its tool cache holds the
rewritten descriptor. -/
def gitConn : ServerConnection :=
  { name := "git", initialized := true,
    tools := [rewriteTool "git" gitStatusTool] }

/-- A ready gateway proxying the git connection. -/
def gwGit : Gateway :=
  { initialized := true
    tools := builtin_tools ++ [rewriteTool "git" gitStatusTool]
    resources := builtin_resources
    prompts := builtin_prompts
    server_connections := [("git", gitConn)]
    mcp_servers := ["git"] }

/-- A sample argument payload for a proxied call. -/
def sampleArgs : JsonVal := .obj [("path", .str "/repo")]

/-- A backend oracle that echoes the forwarded params object back as its
result, making the forwarded name and argument payload observable. -/
def echoBackend : BackendOracle := fun _ _ payload => .ok payload

/-- A backend oracle that never answers. -/
def silentBackend : BackendOracle := fun _ _ _ => .noResponse

/-- A reply produced by `wrap_handler_reply` carries either only a result
or only an error, and echoes the request id. -/
theorem wrap_handler_reply_shape (request_id : Option Int)
    (r : Except String JsonVal) (reply : RpcReply)
    (h : wrap_handler_reply request_id r = some reply) :
    reply.id = request_id ∧
      ((reply.result.isSome ∧ reply.errorCode = none ∧ reply.errorMessage = none) ∨
       (reply.result = none ∧ reply.errorCode = some (-32603))) := by
  cases r with
  | ok v =>
    by_cases hid : request_id.isSome
    · simp [wrap_handler_reply, hid] at h
      subst h
      exact ⟨rfl, Or.inl ⟨rfl, rfl, rfl⟩⟩
    · simp [wrap_handler_reply, hid] at h
  | error msg =>
    by_cases hid : request_id.isSome
    · simp [wrap_handler_reply, hid] at h
      subst h
      exact ⟨rfl, Or.inr ⟨rfl, rfl⟩⟩
    · simp [wrap_handler_reply, hid] at h

/-- Without an id, `wrap_handler_reply` never replies. -/
theorem wrap_handler_reply_none (r : Except String JsonVal) :
    wrap_handler_reply none r = none := by
  cases r <;> simp [wrap_handler_reply]

/-- C1: the claimed rewrite/route round-trip fails on the code.  The
connection "git" advertises a tool originally named "git_status"; the
aggregator exposes it as "git_git_status", but routing the call strips
with Python's replace-all (`tool_name.replace(f"(server_name)_", "")`),
so the backend receives the name "status" — not the original
"git_status" — while the argument payload is forwarded unchanged. -/
theorem C1_roundtrip_replace_bug :
    (rewriteTool "git" gitStatusTool).name = "git_git_status" ∧
    proxy_route_tool gwGit.server_connections "git_git_status"
      = some ("git", "status") ∧
    "status" ≠ "git_status" ∧
    handle_tools_call gwGit 0 { name := some "git_git_status", arguments := sampleArgs }
        echoBackend (fun _ => false)
      = .ok (.obj [("name", .str "status"), ("arguments", sampleArgs)]) :=
  ⟨rfl, rfl, by decide, rfl⟩

/-- C2: before the client's `initialized` notification has been processed
(`self.initialized` still false), every tools / resources / prompts
method raises "Server not initialized" inside its handler, which
`handle_request` converts into a -32603 internal error reply for any
id-bearing request; no execution produces a result. -/
theorem C2_pre_ready_internal_error (gw : Gateway) (now : ℚ) (req : RpcRequest)
    (initEffect : Gateway → Gateway) (backend : BackendOracle)
    (reconnectOk : String → Bool)
    (hready : gw.initialized = false)
    (hm : req.method = some "tools/list" ∨ req.method = some "tools/call" ∨
          req.method = some "resources/list" ∨ req.method = some "resources/read" ∨
          req.method = some "prompts/list" ∨ req.method = some "prompts/get") :
    (req.id.isSome = true →
      (handle_request gw now req initEffect backend reconnectOk).2
        = some { id := req.id, errorCode := some (-32603),
                 errorMessage := some "Server not initialized" }) ∧
    (∀ r, (handle_request gw now req initEffect backend reconnectOk).2 = some r →
      r.result = none ∧ r.errorCode = some (-32603)) := by
  have key : (handle_request gw now req initEffect backend reconnectOk).2
      = wrap_handler_reply req.id (Except.error "Server not initialized") := by
    rcases hm with h | h | h | h | h | h <;>
      simp [handle_request, h, handle_tools_list, handle_tools_call,
            handle_resources_list, handle_resources_read, handle_prompts_list,
            handle_prompts_get, hready]
  constructor
  · intro hid
    rw [key]
    simp [wrap_handler_reply, hid]
  · intro r hr
    rw [key] at hr
    by_cases hid : req.id.isSome
    · simp [wrap_handler_reply, hid] at hr
      subst hr
      exact ⟨rfl, rfl⟩
    · simp [wrap_handler_reply, hid] at hr

/-- Witness for C2 at a concrete input: a `tools/call` request with id 7
against the fresh (not yet ready) gateway. -/
theorem C2_pre_ready_internal_error_witness :
    ({} : Gateway).initialized = false ∧
    (handle_request {} 0 { id := some 7, method := some "tools/call" } id
        silentBackend (fun _ => false)).2
      = some { id := some 7, errorCode := some (-32603),
               errorMessage := some "Server not initialized" } :=
  ⟨rfl,
   (C2_pre_ready_internal_error {} 0 { id := some 7, method := some "tools/call" }
      id silentBackend (fun _ => false) rfl (Or.inr (Or.inl rfl))).1 rfl⟩

/-- C3 counterexample: a notification (no id) with an unknown method DOES
produce a reply — the unknown-method branch of `handle_request`
(lines 868-876) returns its -32601 error without checking for an id —
refuting "for every incoming front-end message without an id, the gateway
produces no reply". -/
theorem C3_unknown_notification_reply_cex :
    ((handle_request {} 0 { id := none, method := some "foo/bar" } id
        silentBackend (fun _ => false)).2).isSome = true ∧
    (handle_request {} 0 { id := none, method := some "foo/bar" } id
        silentBackend (fun _ => false)).2
      = some { id := none, errorCode := some (-32601),
               errorMessage := some "Method not found: foo/bar" } :=
  ⟨rfl, rfl⟩

/-- The reply component of `handle_request`, written as one dispatch
chain over the method name. -/
theorem handle_request_snd (gw : Gateway) (now : ℚ) (req : RpcRequest)
    (initEffect : Gateway → Gateway) (backend : BackendOracle)
    (reconnectOk : String → Bool) :
    (handle_request gw now req initEffect backend reconnectOk).2 =
      if req.method = some "initialize" then
        wrap_handler_reply req.id (Except.ok (handle_initialize_result (initEffect gw)))
      else if req.method = some "initialized" then none
      else if req.method = some "tools/list" then
        wrap_handler_reply req.id (handle_tools_list gw)
      else if req.method = some "tools/call" then
        wrap_handler_reply req.id (handle_tools_call gw now req.params backend reconnectOk)
      else if req.method = some "resources/list" then
        wrap_handler_reply req.id (handle_resources_list gw)
      else if req.method = some "resources/read" then
        wrap_handler_reply req.id (handle_resources_read gw req.params backend)
      else if req.method = some "prompts/list" then
        wrap_handler_reply req.id (handle_prompts_list gw)
      else if req.method = some "prompts/get" then
        wrap_handler_reply req.id (handle_prompts_get gw req.params backend)
      else some { id := req.id, errorCode := some (-32601),
                  errorMessage := some ("Method not found: " ++ methodText req.method) } := by
  unfold handle_request
  repeat' split
  all_goals simp_all

/-- C3 amended: a notification whose method is one the router knows
produces no reply; a message with an unknown (or missing) method is
answered with a -32601 error reply whether or not it carries an id; and
every reply `handle_request` produces carries exactly one of `result`
and `error`, never both. -/
theorem C3_notification_and_reply_shape (gw : Gateway) (now : ℚ) (req : RpcRequest)
    (initEffect : Gateway → Gateway) (backend : BackendOracle)
    (reconnectOk : String → Bool) :
    ((∃ m, req.method = some m ∧ m ∈ known_methods) → req.id = none →
      (handle_request gw now req initEffect backend reconnectOk).2 = none) ∧
    ((∀ m, req.method = some m → m ∉ known_methods) →
      (handle_request gw now req initEffect backend reconnectOk).2
        = some { id := req.id, errorCode := some (-32601),
                 errorMessage := some ("Method not found: " ++ methodText req.method) }) ∧
    (∀ r, (handle_request gw now req initEffect backend reconnectOk).2 = some r →
      (r.result.isSome ∧ r.errorCode = none ∧ r.errorMessage = none) ∨
      (r.result = none ∧ r.errorCode.isSome)) := by
  refine ⟨?_, ?_, ?_⟩
  · rintro ⟨m, hm, hmem⟩ hid
    simp [known_methods] at hmem
    rcases hmem with h | h | h | h | h | h | h | h <;> subst h <;>
      simp [handle_request, hm, hid, wrap_handler_reply_none]
  · intro hunk
    have h1 : req.method ≠ some "initialize" := fun h => hunk _ h (by simp [known_methods])
    have h2 : req.method ≠ some "initialized" := fun h => hunk _ h (by simp [known_methods])
    have h3 : req.method ≠ some "tools/list" := fun h => hunk _ h (by simp [known_methods])
    have h4 : req.method ≠ some "tools/call" := fun h => hunk _ h (by simp [known_methods])
    have h5 : req.method ≠ some "resources/list" := fun h => hunk _ h (by simp [known_methods])
    have h6 : req.method ≠ some "resources/read" := fun h => hunk _ h (by simp [known_methods])
    have h7 : req.method ≠ some "prompts/list" := fun h => hunk _ h (by simp [known_methods])
    have h8 : req.method ≠ some "prompts/get" := fun h => hunk _ h (by simp [known_methods])
    simp [handle_request, h1, h2, h3, h4, h5, h6, h7, h8]
  · intro r hr
    rw [handle_request_snd] at hr
    have shape : ∀ e : Except String JsonVal, wrap_handler_reply req.id e = some r →
        (r.result.isSome ∧ r.errorCode = none ∧ r.errorMessage = none) ∨
        (r.result = none ∧ r.errorCode.isSome) :=
      fun e he => ((wrap_handler_reply_shape _ _ _ he).2).imp id
        (fun h => ⟨h.1, by simp [h.2]⟩)
    repeat' split at hr
    · exact shape _ hr
    · exact absurd hr (by simp)
    · exact shape _ hr
    · exact shape _ hr
    · exact shape _ hr
    · exact shape _ hr
    · exact shape _ hr
    · exact shape _ hr
    · cases hr
      exact Or.inr ⟨rfl, by simp⟩

/-- Witness for C3's amended theorem: a `tools/list` notification against
the fresh gateway produces no reply. -/
theorem C3_notification_and_reply_shape_witness :
    (∃ m, (({ id := none, method := some "tools/list" } : RpcRequest)).method
            = some m ∧ m ∈ known_methods) ∧
    (handle_request {} 0 { id := none, method := some "tools/list" } id
        silentBackend (fun _ => false)).2 = none :=
  ⟨⟨"tools/list", rfl, by simp [known_methods]⟩,
   (C3_notification_and_reply_shape {} 0 { id := none, method := some "tools/list" }
      id silentBackend (fun _ => false)).1
     ⟨"tools/list", rfl, by simp [known_methods]⟩ rfl⟩

/-- Modelled from the spec's words for claim C4: the capability
categories that are non-empty in the aggregate directory.  The directory
consists of the tools, resources and prompts sequences; it has no logging
entries, so under the claim's reading the logging category is never
non-empty. -/
def spec_nonempty_directory_categories (gw : Gateway) : List String :=
  (if gw.tools.isEmpty then [] else ["tools"]) ++
  (if gw.resources.isEmpty then [] else ["resources"]) ++
  (if gw.prompts.isEmpty then [] else ["prompts"])

/-- C4 counterexample: with an entirely empty aggregate directory (the
state left when loading the configuration fails) the initialize reply
still declares the logging capability, though no category is non-empty —
the `"logging": ` entry of `handle_initialize` is unconditional, so the
declared categories are not exactly the non-empty ones. -/
theorem C4_logging_always_declared_cex :
    (aggregate_capabilities_obj {}).keys = ["logging"] ∧
    spec_nonempty_directory_categories {} = [] ∧
    (aggregate_capabilities_obj {}).keys ≠ spec_nonempty_directory_categories {} :=
  ⟨rfl, rfl, by decide⟩

/-- C4 amended: the capability object of the initialize reply declares
exactly the non-empty categories among tools, resources and prompts (in
that order), and always declares logging last, regardless of the
directory. -/
theorem C4_capabilities_declare_nonempty (gw : Gateway) :
    (handle_initialize_result gw).get? "capabilities"
      = some (aggregate_capabilities_obj gw) ∧
    (aggregate_capabilities_obj gw).keys
      = spec_nonempty_directory_categories gw ++ ["logging"] := by
  refine ⟨rfl, ?_⟩
  by_cases h1 : gw.tools.isEmpty = true <;> by_cases h2 : gw.resources.isEmpty = true <;>
    by_cases h3 : gw.prompts.isEmpty = true <;>
      simp [aggregate_capabilities_obj, spec_nonempty_directory_categories,
            JsonVal.keys, h1, h2, h3]

/-- The retry loop makes at most `made + remaining` attempts in total. -/
theorem start_connection_loop_attempts_le (remaining : Nat) :
    ∀ (made : Nat) (d : ℚ) (outcomes : Nat → AttemptOutcome),
      (start_connection_loop remaining made d outcomes).attempts ≤ made + remaining := by
  induction remaining with
  | zero => intro made d outcomes; simp [start_connection_loop]
  | succ n ih =>
    intro made d outcomes
    unfold start_connection_loop
    have hrec := ih (made + 1) (d * 2) outcomes
    cases h : outcomes made <;> simp [h] <;> split <;> simp <;> omega

/-- At least one attempt runs whenever the loop is entered. -/
theorem start_connection_loop_attempts_ge (n : Nat) :
    ∀ (made : Nat) (d : ℚ) (outcomes : Nat → AttemptOutcome),
      made + 1 ≤ (start_connection_loop (n + 1) made d outcomes).attempts := by
  induction n with
  | zero =>
    intro made d outcomes
    unfold start_connection_loop
    cases h : outcomes made <;> simp [h]
  | succ m ih =>
    intro made d outcomes
    unfold start_connection_loop
    cases h : outcomes made <;> simp [h]
    all_goals
      have := ih (made + 1) (d * 2) outcomes
      omega

/-- A retryable failure with attempts to spare sleeps the current delay,
doubles it, and continues. -/
theorem start_connection_loop_retry_step (n made : Nat) (d : ℚ)
    (outcomes : Nat → AttemptOutcome) (h : retryable (outcomes made) = true) :
    start_connection_loop (n + 2) made d outcomes =
      { attempts := (start_connection_loop (n + 1) (made + 1) (d * 2) outcomes).attempts
        sleeps := d :: (start_connection_loop (n + 1) (made + 1) (d * 2) outcomes).sleeps
        connected := (start_connection_loop (n + 1) (made + 1) (d * 2) outcomes).connected } := by
  conv_lhs => rw [start_connection_loop]
  cases ho : outcomes made <;> simp [ho, retryable] at h ⊢

/-- A retryable failure on the final attempt fails without sleeping. -/
theorem start_connection_loop_last (made : Nat) (d : ℚ)
    (outcomes : Nat → AttemptOutcome) (h : retryable (outcomes made) = true) :
    start_connection_loop 1 made d outcomes
      = { attempts := made + 1, sleeps := [], connected := false } := by
  conv_lhs => rw [start_connection_loop]
  cases ho : outcomes made <;> simp [ho, retryable] at h ⊢

/-- C5: connection establishment makes at most 3 attempts; with only
retryable failures it makes exactly 3, sleeping 1 then 2 time units
between them; a missing executable or a permission error on the first
attempt, or a missing launch command, ends after exactly one attempt with
no sleep; and any retryable first failure is in fact retried. -/
theorem C5_retry_policy :
    (∀ (server_name : String) (commandMissing : Bool)
       (outcomes : Nat → AttemptOutcome),
      (start_server_connection_trace server_name commandMissing outcomes).attempts ≤ 3) ∧
    (∀ (server_name : String) (outcomes : Nat → AttemptOutcome),
      server_name ≠ "unified-mcp" →
      (∀ i, retryable (outcomes i) = true) →
      start_server_connection_trace server_name false outcomes
        = { attempts := 3, sleeps := [1, 2], connected := false }) ∧
    (∀ (server_name : String) (outcomes : Nat → AttemptOutcome),
      server_name ≠ "unified-mcp" →
      (outcomes 0 = AttemptOutcome.execMissing ∨
       outcomes 0 = AttemptOutcome.permissionDenied) →
      start_server_connection_trace server_name false outcomes
        = { attempts := 1, sleeps := [], connected := false }) ∧
    (∀ (server_name : String) (outcomes : Nat → AttemptOutcome),
      start_server_connection_trace server_name true outcomes
        = { attempts := 1, sleeps := [], connected := false }) ∧
    (∀ (server_name : String) (outcomes : Nat → AttemptOutcome),
      server_name ≠ "unified-mcp" →
      retryable (outcomes 0) = true →
      2 ≤ (start_server_connection_trace server_name false outcomes).attempts) := by
  refine ⟨?_, ?_, ?_, ?_, ?_⟩
  · intro server_name commandMissing outcomes
    unfold start_server_connection_trace
    split
    · simp
    · split
      · simp
      · exact start_connection_loop_attempts_le 3 0 1 outcomes
  · intro server_name outcomes hname hretry
    unfold start_server_connection_trace
    rw [if_neg hname, if_neg (by simp)]
    have s1 := start_connection_loop_retry_step 1 0 1 outcomes (hretry 0)
    have s2 := start_connection_loop_retry_step 0 1 2 outcomes (hretry 1)
    have s3 := start_connection_loop_last 2 4 outcomes (hretry 2)
    norm_num at s1 s2 s3
    rw [s1, s2, s3]
  · intro server_name outcomes hname h0
    unfold start_server_connection_trace
    rw [if_neg hname, if_neg (by simp)]
    rcases h0 with h | h <;>
      · unfold start_connection_loop
        rw [h]
  · intro server_name outcomes
    unfold start_server_connection_trace
    split
    · rfl
    · rw [if_pos rfl]
  · intro server_name outcomes hname h0
    unfold start_server_connection_trace
    rw [if_neg hname, if_neg (by simp)]
    have s1 := start_connection_loop_retry_step 1 0 1 outcomes h0
    norm_num at s1
    rw [s1]
    exact start_connection_loop_attempts_ge 1 1 2 outcomes

/-- Witness for C5 at a concrete input: a backend whose handshake always
times out is attempted exactly 3 times with backoff sleeps 1 and 2. -/
theorem C5_retry_policy_witness :
    ("npm" ≠ "unified-mcp") ∧
    (∀ i : Nat, retryable ((fun _ => AttemptOutcome.timedOut) i) = true) ∧
    start_server_connection_trace "npm" false (fun _ => AttemptOutcome.timedOut)
      = { attempts := 3, sleeps := [1, 2], connected := false } :=
  ⟨by decide, fun _ => rfl,
   C5_retry_policy.2.1 "npm" (fun _ => AttemptOutcome.timedOut)
     (by decide) (fun _ => rfl)⟩

/-- C6 counterexample: when the write (or any non-timeout step) of
`send_server_request` raises after the pending future was registered, the
generic except branch (lines 424-427) records the error but never evicts
the entry, so the send completes with the entry still in the mapping —
refuting "no execution path of the send operation leaves the entry
dangling". -/
theorem C6_dangling_entry_cex :
    (send_server_request_effect { name := "git", initialized := true } 5 1 1
        (SendOutcome.sendFailed "BrokenPipeError")).pending_requests = [1] ∧
    (1 : Nat) ∈ (send_server_request_effect { name := "git", initialized := true } 5 1 1
        (SendOutcome.sendFailed "BrokenPipeError")).pending_requests :=
  ⟨rfl, by decide⟩

/-- C6 amended: for a fresh request id, the pending entry is gone after
the send when the reader resolved it (matching reply) or when the 30-unit
wait timed out (explicit eviction); but a send that fails with any other
exception after registering leaves the entry dangling in the mapping. -/
theorem C6_pending_entry_lifecycle (c : ServerConnection) (now elapsed : ℚ)
    (request_id : Nat) (msg : String)
    (halive : c.processAlive = true) :
    ((send_server_request_effect c now elapsed request_id
        SendOutcome.replyReceived).pending_requests = c.pending_requests) ∧
    ((send_server_request_effect c now elapsed request_id
        SendOutcome.timedOut).pending_requests = c.pending_requests) ∧
    ((send_server_request_effect c now elapsed request_id
        (SendOutcome.sendFailed msg)).pending_requests
      = request_id :: c.pending_requests) := by
  unfold send_server_request_effect ServerConnection.update_stats
  simp [halive]
  refine ⟨?_, ?_, ?_⟩ <;> (try split) <;> simp

/-- Witness for C6's amended theorem at a concrete connection with an
empty pending mapping and request id 9. -/
theorem C6_pending_entry_lifecycle_witness :
    ({ name := "git", initialized := true } : ServerConnection).processAlive = true ∧
    (send_server_request_effect { name := "git", initialized := true } 5 1 9
        SendOutcome.timedOut).pending_requests = [] ∧
    (send_server_request_effect { name := "git", initialized := true } 5 1 9
        (SendOutcome.sendFailed "BrokenPipeError")).pending_requests = [9] :=
  ⟨rfl,
   (C6_pending_entry_lifecycle { name := "git", initialized := true } 5 1 9
      "BrokenPipeError" rfl).2.1,
   (C6_pending_entry_lifecycle { name := "git", initialized := true } 5 1 9
      "BrokenPipeError" rfl).2.2⟩

/-- A backend advertising one tool originally named "status". -/
def advGit : BackendAdvertised :=
  { tools := [{ name := "status", description := "git status" }] }

/-- The gateway directory holding only the built-in descriptors. -/
def builtinDirectory : Directory :=
  { tools := builtin_tools, resources := builtin_resources, prompts := builtin_prompts }

/-- Directory and registry after the "git" backend first connects. -/
def c7_after_first : Directory × List (String × Directory) :=
  connect_event builtinDirectory [] "git" advGit

/-- Directory and registry after the same backend reconnects. -/
def c7_after_reconnect : Directory × List (String × Directory) :=
  connect_event c7_after_first.1 c7_after_first.2 "git" advGit

/-- C7 counterexample: after "git" reconnects, the aggregate directory
holds the rewritten tool twice — `fetch_server_capabilities` only ever
extends `self.tools`, so the superseded instance's entry is never
removed — while the registry's per-connection cache holds it once; the
aggregate is NOT the built-ins plus the current connections' rewritten
descriptors. -/
theorem C7_stale_descriptor_cex :
    (c7_after_reconnect.1.tools.map Tool.name
      = ["health_check", "list_connected_servers", "server_capabilities",
         "server_statistics", "reconnect_server", "git_status", "git_status"]) ∧
    (c7_after_reconnect.2.map (fun p => p.2.tools.map Tool.name) = [["git_status"]]) ∧
    (c7_after_reconnect.1.tools.map Tool.name
      ≠ builtin_tools.map Tool.name ++
        (c7_after_reconnect.2.map (fun p => p.2.tools.map Tool.name)).flatten) :=
  ⟨rfl, rfl, by decide⟩

/-- The directory reached by a sequence of connection events: the initial
directory extended by every event's rewritten descriptors, superseded
instances included. -/
theorem run_connect_events_directory (events : List (String × BackendAdvertised)) :
    ∀ (agg : Directory) (registry : List (String × Directory)),
      (run_connect_events agg registry events).1 =
        { tools := agg.tools ++
            (events.map (fun e => e.2.tools.map (rewriteTool e.1))).flatten
          resources := agg.resources ++
            (events.map (fun e => e.2.resources.map (rewriteResource e.1))).flatten
          prompts := agg.prompts ++
            (events.map (fun e => e.2.prompts.map (rewritePrompt e.1))).flatten } := by
  induction events with
  | nil => intro agg registry; simp [run_connect_events]
  | cons e rest ih =>
    intro agg registry
    obtain ⟨n, adv⟩ := e
    simp [run_connect_events, connect_event, fetch_server_capabilities_effect, ih]

/-- Setting a key makes it look up to the new value. -/
theorem lookupEntry_setEntry {α : Type} (reg : List (String × α)) (k : String) (v : α) :
    lookupEntry (setEntry reg k v) k = some v := by
  induction reg with
  | nil => simp [setEntry, lookupEntry]
  | cons p rest ih =>
    obtain ⟨k', v'⟩ := p
    by_cases h : k' = k
    · simp [setEntry, h, lookupEntry]
    · simpa [setEntry, h, lookupEntry] using ih

/-- C7 amended: the aggregate directory is append-only — after any
sequence of (re)connection events it equals the starting directory
followed by every event's rewritten descriptors, those of superseded
instances of the same connection included; only the per-connection caches
are replaced wholesale (the registry maps a reconnected name to exactly
the new instance's rewritten descriptors). -/
theorem C7_directory_append_only (events : List (String × BackendAdvertised))
    (agg : Directory) (registry : List (String × Directory)) :
    ((run_connect_events agg registry events).1.tools
       = agg.tools ++ (events.map (fun e => e.2.tools.map (rewriteTool e.1))).flatten) ∧
    ((run_connect_events agg registry events).1.resources
       = agg.resources ++
         (events.map (fun e => e.2.resources.map (rewriteResource e.1))).flatten) ∧
    ((run_connect_events agg registry events).1.prompts
       = agg.prompts ++
         (events.map (fun e => e.2.prompts.map (rewritePrompt e.1))).flatten) ∧
    (∀ n adv, lookupEntry ((connect_event agg registry n adv).2) n
       = some { tools := adv.tools.map (rewriteTool n)
                resources := adv.resources.map (rewriteResource n)
                prompts := adv.prompts.map (rewritePrompt n) }) := by
  refine ⟨?_, ?_, ?_, ?_⟩
  · rw [run_connect_events_directory]
  · rw [run_connect_events_directory]
  · rw [run_connect_events_directory]
  · intro n adv
    simp [connect_event, fetch_server_capabilities_effect]
    exact lookupEntry_setEntry registry n _

/-- C8 counterexample: a dead connection whose reconnection attempt fails
is NOT absent from the registry after the cycle — the source never
deletes the entry (lines 1081-1086 only reassign on success), so the name
still maps to the torn-down connection. -/
theorem C8_failed_reconnect_stays_cex :
    (({ name := "git", initialized := true, processAlive := false }
        : ServerConnection).is_healthy 100 = false) ∧
    lookupEntry (health_monitor_cycle
        [("git", { name := "git", initialized := true, processAlive := false })]
        100 (fun _ => true) (fun _ => none)).1 "git"
      = some { name := "git", initialized := true, processAlive := false } ∧
    (health_monitor_cycle
        [("git", { name := "git", initialized := true, processAlive := false })]
        100 (fun _ => true) (fun _ => none)).2
      = [{ name := "git", reader_cancelled := true, process_terminated := true,
           reconnect_attempts := 1 }] :=
  ⟨rfl, rfl, rfl⟩

/-- C8 amended: each cycle, every connection failing the health predicate
is torn down (reader cancelled, process terminated) with exactly one
reconnection attempted when its name is configured; a success replaces
the registry entry in place, but a failure leaves the torn-down old entry
under its name (the Connection is not absent — it is retried because it
is still registered and still unhealthy).  The registry's key sequence is
unchanged by a cycle, and healthy connections are untouched. -/
theorem C8_health_cycle_behavior (registry : List (String × ServerConnection))
    (now : ℚ) (configured : String → Bool)
    (reconnect : String → Option ServerConnection) :
    ((health_monitor_cycle registry now configured reconnect).1.map Prod.fst
       = registry.map Prod.fst) ∧
    ((health_monitor_cycle registry now configured reconnect).2.map CycleReport.name
       = (registry.filter (fun p => !(p.2.is_healthy now))).map Prod.fst) ∧
    (∀ rep ∈ (health_monitor_cycle registry now configured reconnect).2,
       rep.reader_cancelled = true ∧ rep.process_terminated = true ∧
       rep.reconnect_attempts = if configured rep.name then 1 else 0) ∧
    (∀ p ∈ registry, p.2.is_healthy now = true →
       p ∈ (health_monitor_cycle registry now configured reconnect).1) ∧
    (∀ name conn, (name, conn) ∈ registry → conn.is_healthy now = false →
       configured name = true →
       (∀ fresh, reconnect name = some fresh →
          (name, fresh) ∈ (health_monitor_cycle registry now configured reconnect).1) ∧
       (reconnect name = none →
          (name, { conn with processAlive := false })
            ∈ (health_monitor_cycle registry now configured reconnect).1)) := by
  refine ⟨?_, ?_, ?_, ?_, ?_⟩
  · simp only [health_monitor_cycle, List.map_map]
    apply List.map_congr_left
    intro p _
    obtain ⟨n, c⟩ := p
    by_cases h : c.is_healthy now = true
    · simp [health_cycle_entry, h]
    · rcases hrec : reconnect n with _ | fresh <;>
        by_cases hcfg : configured n = true <;>
          simp [health_cycle_entry, h, hcfg, hrec]
  · simp only [health_monitor_cycle, List.map_map]
    apply List.map_congr_left
    intro p _
    rfl
  · intro rep hrep
    simp only [health_monitor_cycle] at hrep
    obtain ⟨p, hp, rfl⟩ := List.mem_map.mp hrep
    exact ⟨rfl, rfl, rfl⟩
  · intro p hp hhealthy
    simp only [health_monitor_cycle]
    have : health_cycle_entry now configured reconnect p = p := by
      simp [health_cycle_entry, hhealthy]
    exact this ▸ List.mem_map_of_mem _ hp
  · intro name conn hmem hunh hcfg
    constructor
    · intro fresh hrec
      have : health_cycle_entry now configured reconnect (name, conn) = (name, fresh) := by
        simp [health_cycle_entry, hunh, hcfg, hrec]
      exact this ▸ List.mem_map_of_mem _ hmem
    · intro hrec
      have : health_cycle_entry now configured reconnect (name, conn)
          = (name, { conn with processAlive := false }) := by
        simp [health_cycle_entry, hunh, hcfg, hrec]
      exact this ▸ List.mem_map_of_mem _ hmem

/-- Witness for C8's amended theorem: the dead "git" connection with a
failing reconnection oracle stays registered (torn down) after a cycle. -/
theorem C8_health_cycle_behavior_witness :
    (("git", ({ name := "git", initialized := true, processAlive := false }
        : ServerConnection)) ∈
      [("git", ({ name := "git", initialized := true, processAlive := false }
        : ServerConnection))]) ∧
    (({ name := "git", initialized := true, processAlive := false }
        : ServerConnection).is_healthy 100 = false) ∧
    ("git", ({ name := "git", initialized := true, processAlive := false }
        : ServerConnection))
      ∈ (health_monitor_cycle
          [("git", { name := "git", initialized := true, processAlive := false })]
          100 (fun _ => true) (fun _ => none)).1 :=
  ⟨List.mem_singleton.mpr rfl, rfl,
   ((C8_health_cycle_behavior
       [("git", { name := "git", initialized := true, processAlive := false })]
       100 (fun _ => true) (fun _ => none)).2.2.2.2 "git"
       { name := "git", initialized := true, processAlive := false }
       (List.mem_singleton.mpr rfl) rfl rfl).2 rfl⟩

/-- A ready gateway carrying only the built-in descriptors. -/
def gwReady : Gateway :=
  { initialized := true
    tools := builtin_tools
    resources := builtin_resources
    prompts := builtin_prompts }

/-- A syntactically valid JSON object lacking the `jsonrpc` field but
carrying an id and a known method. -/
def noJsonrpcReq : RpcRequest :=
  { hasJsonrpc := false, id := some 1, method := some "tools/list" }

/-- C9 counterexample: on the HTTP `POST /rpc` transport, a valid JSON
message lacking the `jsonrpc` field is NOT answered with a -32600 error —
`handle_http_request` performs no such validation (only `run_stdio` does,
lines 920-930) and the message is dispatched normally, here producing a
200 result reply. -/
theorem C9_http_no_jsonrpc_validation_cex :
    noJsonrpcReq.hasJsonrpc = false ∧
    ((handle_http_request_model gwReady 0 (.message noJsonrpcReq) id
        silentBackend (fun _ => false)).2).errCodeOf ≠ some (-32600) ∧
    ((handle_http_request_model gwReady 0 (.message noJsonrpcReq) id
        silentBackend (fun _ => false)).2).carriesResult = true :=
  ⟨rfl, by decide, rfl⟩

/-- C9 amended: on the line-stream transport any message lacking the
`jsonrpc` field (and any non-object message) is answered with a -32600
error reply with a null id; the HTTP transport performs no `jsonrpc`
validation at all — it treats the message exactly as if the field were
present. -/
theorem C9_jsonrpc_validation_per_transport (gw : Gateway) (now : ℚ)
    (req : RpcRequest) (initEffect : Gateway → Gateway)
    (backend : BackendOracle) (reconnectOk : String → Bool) :
    (req.hasJsonrpc = false →
      (run_stdio_process_line gw now (.message req) initEffect backend reconnectOk).2
        = some { id := none, errorCode := some (-32600),
                 errorMessage := some "Invalid Request" }) ∧
    ((run_stdio_process_line gw now .nonObject initEffect backend reconnectOk).2
        = some { id := none, errorCode := some (-32600),
                 errorMessage := some "Invalid Request" }) ∧
    (handle_http_request_model gw now (.message req) initEffect backend reconnectOk
        = handle_http_request_model gw now
            (.message { req with hasJsonrpc := true }) initEffect backend reconnectOk) := by
  refine ⟨?_, rfl, ?_⟩
  · intro h
    simp [run_stdio_process_line, h]
  · cases req
    rfl

/-- Witness for C9's amended theorem: the concrete no-`jsonrpc` message
gets -32600 on the line-stream transport. -/
theorem C9_jsonrpc_validation_per_transport_witness :
    noJsonrpcReq.hasJsonrpc = false ∧
    (run_stdio_process_line gwReady 0 (.message noJsonrpcReq) id
        silentBackend (fun _ => false)).2
      = some { id := none, errorCode := some (-32600),
               errorMessage := some "Invalid Request" } :=
  ⟨rfl,
   (C9_jsonrpc_validation_per_transport gwReady 0 noJsonrpcReq id
      silentBackend (fun _ => false)).1 rfl⟩

/-- C10: a send on a live connection updates the statistics regardless of
outcome — the request count rises by exactly one; the error count rises
by one exactly when no reply was received (timeout or send exception);
the latency average takes the sample as-is while the stored average is
the 0 sentinel (its initial value) and otherwise moves to
0.9 * old + 0.1 * sample; and the heartbeat is stamped with the current
time even on failure, so an initialized live connection always satisfies
the heartbeat-freshness clause of the health predicate right after a
send, timeouts included. -/
theorem C10_stats_updated_every_send (c : ServerConnection) (now elapsed : ℚ)
    (request_id : Nat) (outcome : SendOutcome)
    (halive : c.processAlive = true) (hinit : c.initialized = true) :
    ((send_server_request_effect c now elapsed request_id outcome).request_count
       = c.request_count + 1) ∧
    ((send_server_request_effect c now elapsed request_id outcome).error_count
       = c.error_count + (if outcome = SendOutcome.replyReceived then 0 else 1)) ∧
    ((send_server_request_effect c now elapsed request_id outcome).avg_response_time
       = (if c.avg_response_time = 0 then elapsed
          else (9 / 10) * c.avg_response_time + (1 / 10) * elapsed)) ∧
    ((send_server_request_effect c now elapsed request_id outcome).last_heartbeat = now) ∧
    (now - (send_server_request_effect c now elapsed request_id outcome).last_heartbeat
       < 60) ∧
    ((send_server_request_effect c now elapsed request_id outcome).is_healthy now
       = true) := by
  unfold send_server_request_effect ServerConnection.update_stats
    ServerConnection.is_healthy
  cases outcome <;> simp [halive, hinit] <;>
    (try split) <;> simp_all

/-- Witness for C10 at a concrete input: a timed-out send on a fresh live
connection leaves request count 1, error count 1, the sample as average,
and a fresh heartbeat satisfying the health predicate. -/
theorem C10_stats_updated_every_send_witness :
    (({ name := "git", initialized := true } : ServerConnection).processAlive = true) ∧
    ((send_server_request_effect { name := "git", initialized := true } 5 2 1
        SendOutcome.timedOut).request_count = 0 + 1) ∧
    ((send_server_request_effect { name := "git", initialized := true } 5 2 1
        SendOutcome.timedOut).error_count = 0 + 1) ∧
    ((send_server_request_effect { name := "git", initialized := true } 5 2 1
        SendOutcome.timedOut).is_healthy 5 = true) :=
  ⟨rfl,
   (C10_stats_updated_every_send { name := "git", initialized := true } 5 2 1
      SendOutcome.timedOut rfl rfl).1,
   by
     have h := (C10_stats_updated_every_send { name := "git", initialized := true } 5 2 1
       SendOutcome.timedOut rfl rfl).2.1
     simpa using h,
   (C10_stats_updated_every_send { name := "git", initialized := true } 5 2 1
      SendOutcome.timedOut rfl rfl).2.2.2.2.2⟩

end MCP
